import Mathlib

/-!
Verification of the event-classification and signed log-ingestion logic of
`func-app/function_app.py` (azure-monitor-poc).

The Python module is embedded shallowly:
* JSON values become the inductive `JValue`; a parsed JSON object (a Python
  dict in insertion order) becomes a `List (String × JValue)`.
* Python code that can raise (`str.lower` on a non-string, `>=` between a
  string and an int) is embedded in `Except String`, the error string naming
  the Python exception class.
* `datetime.datetime.utcnow()` is modelled as an explicit `Tm` argument; the
  network is modelled as an oracle `SignedRequest → NetOutcome` passed to the
  functions that call `requests.post`.
* `hashlib.sha256`, `hmac`, `base64` and `json.dumps` (with its default
  `ensure_ascii=True`) are given executable models over byte lists / strings.
-/

set_option maxHeartbeats 1000000

/-- A JSON-compatible Python value (ints stand in for Python numbers). -/
inductive JValue where
  | null
  | bool (b : Bool)
  | num (n : Int)
  | str (s : String)
  | arr (xs : List JValue)
  | obj (fields : List (String × JValue))

/-- Fields of a parsed JSON object, in Python dict insertion order. -/
abbrev Rec' := List (String × JValue)

/-- First binding of key `k`, the lookup a (duplicate-free) dict performs. -/
def lookupField : Rec' → String → Option JValue
  | [], _ => none
  | (k', v) :: rest, k => if k' == k then some v else lookupField rest k

/-- Python `k in d` on a dict. -/
def hasKey (fs : Rec') (k : String) : Bool :=
  fs.any (fun p => p.1 == k)

/-- Python `d.get(k, default)`. -/
def pyGet (fs : Rec') (k : String) (d : JValue) : JValue :=
  (lookupField fs k).getD d

/-- Python `d[k] = v` for a key that may be absent (appends in insertion order);
used only through the `if k not in d` guards of the handlers. -/
def setDefault (fs : Rec') (k : String) (v : JValue) : Rec' :=
  if hasKey fs k then fs else fs ++ [(k, v)]

/-- ASCII fragment of Python `str.lower` (the module only compares ASCII
constants after lowering). -/
def lowerChar (c : Char) : Char :=
  if 65 ≤ c.toNat ∧ c.toNat ≤ 90 then Char.ofNat (c.toNat + 32) else c

/-- Lowercase a string, character by character. -/
def asciiLower (s : String) : String :=
  String.mk (s.data.map lowerChar)

/-- `listPre p l` is true when `p` is an initial segment of `l`. -/
def listPre : List Char → List Char → Bool
  | [], _ => true
  | _ :: _, [] => false
  | a :: as2, b :: bs => a == b && listPre as2 bs

/-- Python `s.startswith(p)`. -/
def strStartsWith (s p : String) : Bool :=
  listPre p.data s.data

/-- Python `needle in hay` on strings (substring test). -/
def strContains (hay needle : String) : Bool :=
  go needle.data hay.data
where
  go : List Char → List Char → Bool
    | [], _ => true
    | _ :: _, [] => false
    | n, c :: rest => listPre n (c :: rest) || go n rest

/-- Python `v.lower()` on an arbitrary value: only `str` has the method. -/
def pyLowerV : JValue → Except String String
  | .str s => .ok (asciiLower s)
  | _ => .error "AttributeError"

/-- Python `v.startswith(p)` on an arbitrary value. -/
def pyStartsWithV : JValue → String → Except String Bool
  | .str s, p => .ok (strStartsWith s p)
  | _, _ => .error "AttributeError"

/-- Python `v >= b` for an int bound: defined for numbers and bools
(`True`/`False` act as `1`/`0`), a `TypeError` otherwise. -/
def pyGeNumV : JValue → Int → Except String Bool
  | .num n, b => .ok (decide (b ≤ n))
  | .bool bv, b => .ok (decide (b ≤ (if bv then (1 : Int) else 0)))
  | _, _ => .error "TypeError"

/-- Python `v in ['Login', 'API_Usage', 'Data_Modification']` (list membership
via `==`; a non-string is `==` to no string and raises nothing). -/
def eventTypeMem : JValue → Bool
  | .str s => s == "Login" || s == "API_Usage" || s == "Data_Modification"
  | _ => false

/-- `determine_log_type` of `function_app.py` (lines 53-75), with Python's
short-circuit `or` and its possible exceptions made explicit. -/
def determine_log_type (fs : Rec') : Except String String :=
  let event_type := pyGet fs "eventType" (.str "")
  match pyLowerV (pyGet fs "sourceSystem" (.str "")) with
  | .error e => .error e
  | .ok source_system =>
    match (if source_system == "mulesoft" then .ok true
           else pyStartsWithV event_type "MuleSoft") with
    | .error e => .error e
    | .ok isMule =>
      if isMule then
        if hasKey fs "latency" || hasKey fs "responseTime" then
          .ok "MuleSoftPerformance"
        else
          match (if hasKey fs "error" then .ok true
                 else pyGeNumV (pyGet fs "statusCode" (.num 0)) 400) with
          | .error e => .error e
          | .ok isErr =>
            if isErr then .ok "MuleSoftError"
            else if hasKey fs "uptime" || hasKey fs "availability" then
              .ok "MuleSoftUptime"
            else .ok "MuleSoftGeneral"
      else if strContains source_system "salesforce" || eventTypeMem event_type then
        .ok "SalesforceEvent"
      else
        .ok "GeneralEvent"

/-- The string value of field `k`, or `""` when absent (used by the spec-side
classifier, which only looks at records whose fields are well typed). -/
def getStrD (fs : Rec') (k : String) : String :=
  match lookupField fs k with
  | some (.str s) => s
  | _ => ""

/-- The integer value of field `k`, or a default when absent. -/
def getIntD (fs : Rec') (k : String) (d : Int) : Int :=
  match lookupField fs k with
  | some (.num n) => n
  | _ => d

/-- Modelled from the spec (section 4.1): the classification decision table
exactly as the specification words it, as a total function. Compared with
`determine_log_type`, the function embedded from the source. -/
def classify_spec (fs : Rec') : String :=
  let et := getStrD fs "eventType"
  let ss := getStrD fs "sourceSystem"
  if asciiLower ss == "mulesoft" || strStartsWith et "MuleSoft" then
    if hasKey fs "latency" || hasKey fs "responseTime" then "MuleSoftPerformance"
    else if hasKey fs "error" || decide (400 ≤ getIntD fs "statusCode" 0) then "MuleSoftError"
    else if hasKey fs "uptime" || hasKey fs "availability" then "MuleSoftUptime"
    else "MuleSoftGeneral"
  else if strContains (asciiLower ss) "salesforce"
      || et == "Login" || et == "API_Usage" || et == "Data_Modification" then
    "SalesforceEvent"
  else
    "GeneralEvent"

/-- `true` when the eventType field is absent or a string. -/
def optStr : Option JValue → Bool
  | none => true
  | some (.str _) => true
  | _ => false

/-- `true` when the field is absent or a number. -/
def optNum : Option JValue → Bool
  | none => true
  | some (.num _) => true
  | _ => false

/-- The three fields the classifier inspects by value are absent or of the
type the code expects (strings for `eventType`/`sourceSystem`, a number for
`statusCode`). -/
def wellTypedFields (fs : Rec') : Bool :=
  optStr (lookupField fs "eventType")
    && optStr (lookupField fs "sourceSystem")
    && optNum (lookupField fs "statusCode")

/-- The closed set of categories named by the specification. -/
def sixCategories : List String :=
  ["SalesforceEvent", "MuleSoftPerformance", "MuleSoftError",
   "MuleSoftUptime", "MuleSoftGeneral", "GeneralEvent"]

/-- The four MuleSoft categories. -/
def muleCategories : List String :=
  ["MuleSoftPerformance", "MuleSoftError", "MuleSoftUptime", "MuleSoftGeneral"]

/-! ### JSON serialization (`json.dumps` with its defaults) -/

/-- Decimal digit (and hex digit) characters; index `n` gives the digit for
`n < 16`. -/
def nibbleChar : Nat → Char
  | 0 => '0' | 1 => '1' | 2 => '2' | 3 => '3' | 4 => '4'
  | 5 => '5' | 6 => '6' | 7 => '7' | 8 => '8' | 9 => '9'
  | 10 => 'a' | 11 => 'b' | 12 => 'c' | 13 => 'd' | 14 => 'e' | 15 => 'f'
  | _ + 16 => '0'

/-- Decimal digits of `n`, most significant first, accumulated in `acc`; the
first argument is fuel (any value at least the digit count works), making
the recursion structural. -/
def natReprAux : Nat → Nat → List Char → List Char
  | _, 0, acc => acc
  | 0, _ + 1, acc => acc
  | fuel + 1, n + 1, acc => natReprAux fuel ((n + 1) / 10) (nibbleChar ((n + 1) % 10) :: acc)

/-- Decimal rendering of a natural number. -/
def natRepr (n : Nat) : List Char :=
  match n with
  | 0 => ['0']
  | n + 1 => natReprAux (n + 1) (n + 1) []

/-- Decimal rendering of an integer (Python `str(int)`). -/
def intRepr (i : Int) : List Char :=
  if i < 0 then '-' :: natRepr i.natAbs else natRepr i.natAbs

/-- Decimal rendering of a natural number as a string (an f-string `{n}`). -/
def natStr (n : Nat) : String :=
  String.mk (natRepr n)

/-- Four lowercase hex digits (the `XXXX` of a `\uXXXX` escape). -/
def hex4 (n : Nat) : List Char :=
  [nibbleChar (n / 4096 % 16), nibbleChar (n / 256 % 16),
   nibbleChar (n / 16 % 16), nibbleChar (n % 16)]

/-- How `json.dumps` (with `ensure_ascii=True`) renders one character of a
string: printable ASCII passes through, `"`/`\` and the short escapes are
backslash-escaped, everything else becomes `\uXXXX` (a surrogate pair above
the BMP). -/
def escChar (c : Char) : List Char :=
  if c = '"' then ['\\', '"']
  else if c = '\\' then ['\\', '\\']
  else if c = '\n' then ['\\', 'n']
  else if c = '\t' then ['\\', 't']
  else if c = '\r' then ['\\', 'r']
  else if c.toNat = 8 then ['\\', 'b']
  else if c.toNat = 12 then ['\\', 'f']
  else if c.toNat < 32 ∨ 126 < c.toNat then
    if c.toNat < 65536 then '\\' :: 'u' :: hex4 c.toNat
    else
      ('\\' :: 'u' :: hex4 (55296 + (c.toNat - 65536) / 1024))
        ++ ('\\' :: 'u' :: hex4 (56320 + (c.toNat - 65536) % 1024))
  else [c]

/-- A JSON string literal, quotes included. -/
def escString (s : String) : String :=
  String.mk ('"' :: (s.data.map escChar).flatten ++ ['"'])

mutual

/-- `json.dumps(v)` with the default separators and `ensure_ascii=True`. -/
def jsonDumps : JValue → String
  | .null => "null"
  | .bool true => "true"
  | .bool false => "false"
  | .num n => String.mk (intRepr n)
  | .str s => escString s
  | .arr xs => "[" ++ dumpArr xs ++ "]"
  | .obj fs => "\x7b" ++ dumpObj fs ++ "\x7d"
termination_by structural v => v

/-- Array elements joined by `", "`. -/
def dumpArr : List JValue → String
  | [] => ""
  | [x] => jsonDumps x
  | x :: y :: rest => jsonDumps x ++ ", " ++ dumpArr (y :: rest)
termination_by structural xs => xs

/-- Object entries `"k": v` joined by `", "`. -/
def dumpObj : List (String × JValue) → String
  | [] => ""
  | [(k, v)] => escString k ++ ": " ++ jsonDumps v
  | (k, v) :: p :: rest => escString k ++ ": " ++ jsonDumps v ++ ", " ++ dumpObj (p :: rest)
termination_by structural fs => fs

end

/-! ### UTF-8, base64, SHA-256 and HMAC -/

/-- UTF-8 encoding of one character, as byte values. -/
def utf8Char (c : Char) : List Nat :=
  let n := c.toNat
  if n < 128 then [n]
  else if n < 2048 then [192 + n / 64, 128 + n % 64]
  else if n < 65536 then [224 + n / 4096, 128 + n / 64 % 64, 128 + n % 64]
  else [240 + n / 262144, 128 + n / 4096 % 64, 128 + n / 64 % 64, 128 + n % 64]

/-- UTF-8 encoding of a character list. -/
def utf8EncodeL : List Char → List Nat
  | [] => []
  | c :: cs => utf8Char c ++ utf8EncodeL cs

/-- Python `s.encode("utf-8")`. -/
def utf8Encode (s : String) : List Nat :=
  utf8EncodeL s.data

/-- The base64 alphabet. -/
def b64Alphabet : List Char :=
  "ABCDEFGHIJKLMNOPQRSTUVWXYZabcdefghijklmnopqrstuvwxyz0123456789+/".data

/-- Character for a 6-bit group. -/
def b64Char (n : Nat) : Char :=
  b64Alphabet.getD n 'A'

/-- Base64-encode a byte list, `=`-padded (Python `base64.b64encode`). -/
def b64encodeAux : List Nat → List Char
  | [] => []
  | [a] => [b64Char (a / 4), b64Char (a % 4 * 16), '=', '=']
  | [a, b] => [b64Char (a / 4), b64Char (a % 4 * 16 + b / 16), b64Char (b % 16 * 4), '=']
  | a :: b :: c :: rest =>
    b64Char (a / 4) :: b64Char (a % 4 * 16 + b / 16)
      :: b64Char (b % 16 * 4 + c / 64) :: b64Char (c % 64) :: b64encodeAux rest

/-- Python `base64.b64encode(..).decode()`. -/
def b64encode (bs : List Nat) : String :=
  String.mk (b64encodeAux bs)

/-- 6-bit value of a base64 alphabet character, `none` for padding or other
characters (which `base64.b64decode` discards). -/
def b64val (c : Char) : Option Nat :=
  let i := b64Alphabet.indexOf c
  if i < 64 then some i else none

/-- Reassemble bytes from 6-bit values. On properly padded input (every key
this program decodes) this agrees with `base64.b64decode`; the trailing
partial-group cases totalize what CPython would reject. -/
def b64vals2bytes : List Nat → List Nat
  | a :: b :: c :: d :: rest =>
    (a * 4 + b / 16) :: (b % 16 * 16 + c / 4) :: (c % 4 * 64 + d) :: b64vals2bytes rest
  | [a, b] => [a * 4 + b / 16]
  | [a, b, c] => [a * 4 + b / 16, b % 16 * 16 + c / 4]
  | _ => []

/-- Python `base64.b64decode` on well-formed input. -/
def b64decode (s : String) : List Nat :=
  b64vals2bytes (s.data.filterMap b64val)

/-- Truncate to 32 bits. -/
def w32 (n : Nat) : Nat := n % 4294967296

/-- Bitwise complement within 32 bits. -/
def not32 (x : Nat) : Nat := 4294967295 - w32 x

/-- Rotate a 32-bit word right by `n` places. -/
def rotr32 (x n : Nat) : Nat :=
  w32 x / 2 ^ n + w32 x % 2 ^ n * 2 ^ (32 - n)

/-- SHA-256 round constants (FIPS 180-4), in decimal. -/
def sha256K : List Nat :=
  [1116352408, 1899447441, 3049323471, 3921009573, 961987163,
   1508970993, 2453635748, 2870763221, 3624381080, 310598401,
   607225278, 1426881987, 1925078388, 2162078206, 2614888103,
   3248222580, 3835390401, 4022224774, 264347078, 604807628,
   770255983, 1249150122, 1555081692, 1996064986, 2554220882,
   2821834349, 2952996808, 3210313671, 3336571891, 3584528711,
   113926993, 338241895, 666307205, 773529912, 1294757372,
   1396182291, 1695183700, 1986661051, 2177026350, 2456956037,
   2730485921, 2820302411, 3259730800, 3345764771, 3516065817,
   3600352804, 4094571909, 275423344, 430227734, 506948616,
   659060556, 883997877, 958139571, 1322822218, 1537002063,
   1747873779, 1955562222, 2024104815, 2227730452, 2361852424,
   2428436474, 2756734187, 3204031479, 3329325298]

/-- SHA-256 initial hash state (FIPS 180-4), in decimal. -/
def sha256H0 : List Nat :=
  [1779033703, 3144134277, 1013904242, 2773480762,
   1359893119, 2600822924, 528734635, 1541459225]

/-- Big-endian bytes of a 64-bit quantity. -/
def be8 (n : Nat) : List Nat :=
  [n / 2 ^ 56 % 256, n / 2 ^ 48 % 256, n / 2 ^ 40 % 256, n / 2 ^ 32 % 256,
   n / 2 ^ 24 % 256, n / 2 ^ 16 % 256, n / 2 ^ 8 % 256, n % 256]

/-- Big-endian bytes of a 32-bit word. -/
def be4 (n : Nat) : List Nat :=
  [n / 2 ^ 24 % 256, n / 2 ^ 16 % 256, n / 2 ^ 8 % 256, n % 256]

/-- SHA-256 message padding: `0x80`, zeros to 56 mod 64, 64-bit bit length. -/
def sha256pad (msg : List Nat) : List Nat :=
  msg ++ [128] ++ List.replicate ((119 - msg.length % 64) % 64) 0
    ++ be8 (msg.length * 8)

/-- Big-endian 32-bit words from bytes. -/
def beWords : List Nat → List Nat
  | a :: b :: c :: d :: rest => (a * 2 ^ 24 + b * 2 ^ 16 + c * 2 ^ 8 + d) :: beWords rest
  | _ => []

/-- Split into 64-byte chunks. -/
def chunks64 : List Nat → List (List Nat)
  | [] => []
  | x :: rest => (x :: rest.take 63) :: chunks64 (rest.drop 63)
termination_by l => l.length
decreasing_by simp [List.length_drop]; omega

/-- Message-schedule sigma functions. -/
def smallSigma0 (x : Nat) : Nat := rotr32 x 7 ^^^ rotr32 x 18 ^^^ w32 x / 2 ^ 3

/-- Second message-schedule sigma. -/
def smallSigma1 (x : Nat) : Nat := rotr32 x 17 ^^^ rotr32 x 19 ^^^ w32 x / 2 ^ 10

/-- Compression sigma functions. -/
def bigSigma0 (x : Nat) : Nat := rotr32 x 2 ^^^ rotr32 x 13 ^^^ rotr32 x 22

/-- Second compression sigma. -/
def bigSigma1 (x : Nat) : Nat := rotr32 x 6 ^^^ rotr32 x 11 ^^^ rotr32 x 25

/-- SHA-256 choice function. -/
def sha256Ch (x y z : Nat) : Nat := (x &&& y) ^^^ (not32 x &&& z)

/-- SHA-256 majority function. -/
def sha256Maj (x y z : Nat) : Nat := (x &&& y) ^^^ (x &&& z) ^^^ (y &&& z)

/-- Extend 16 schedule words to 64. -/
def sched64 (w0 : List Nat) : List Nat :=
  (List.range 48).foldl
    (fun w _ =>
      let n := w.length
      w ++ [w32 (w.getD (n - 16) 0 + smallSigma0 (w.getD (n - 15) 0)
        + w.getD (n - 7) 0 + smallSigma1 (w.getD (n - 2) 0))])
    w0

/-- One SHA-256 compression step over an 8-word state. -/
def sha256Round (w : List Nat) (st : List Nat) (i : Nat) : List Nat :=
  match st with
  | [a, b, c, d, e, f, g, h] =>
    let t1 := w32 (h + bigSigma1 e + sha256Ch e f g + sha256K.getD i 0 + w.getD i 0)
    let t2 := w32 (bigSigma0 a + sha256Maj a b c)
    [w32 (t1 + t2), a, b, c, w32 (d + t1), e, f, g]
  | st => st

/-- Compress one 64-byte chunk into the running hash state. -/
def sha256Compress (hst : List Nat) (chunk : List Nat) : List Nat :=
  let w := sched64 (beWords chunk)
  let fin := (List.range 64).foldl (sha256Round w) hst
  List.zipWith (fun x y => w32 (x + y)) hst fin

/-- SHA-256 digest (32 bytes) of a byte list; the model of `hashlib.sha256`. -/
def sha256 (msg : List Nat) : List Nat :=
  ((chunks64 (sha256pad msg)).foldl sha256Compress sha256H0).map be4 |>.flatten

/-- HMAC-SHA-256 (RFC 2104 with a 64-byte block); the model of
`hmac.new(key, msg, hashlib.sha256).digest()`. -/
def hmacSha256 (key msg : List Nat) : List Nat :=
  let k0 := if 64 < key.length then sha256 key else key
  let k := k0 ++ List.replicate (64 - k0.length) 0
  sha256 ((k.map (fun b => b ^^^ 92)) ++ sha256 ((k.map (fun b => b ^^^ 54)) ++ msg))

/-! ### Clock and its two formattings -/

/-- A UTC instant as `datetime.datetime.utcnow()` exposes it: calendar fields
plus the weekday index (0 = Monday, as `datetime.weekday()`). -/
structure Tm where
  year : Nat
  month : Nat
  day : Nat
  wday : Nat
  hour : Nat
  minute : Nat
  second : Nat
  usec : Nat

/-- Two-digit zero-padded decimal (`%d`, `%H`, `%M`, `%S`). -/
def pad2 (n : Nat) : String :=
  if n < 10 then "0" ++ natStr n else natStr n

/-- Four-digit zero-padded decimal (`%Y` and the isoformat year). -/
def pad4 (n : Nat) : String :=
  if n < 10 then "000" ++ natStr n
  else if n < 100 then "00" ++ natStr n
  else if n < 1000 then "0" ++ natStr n
  else natStr n

/-- Six-digit zero-padded decimal (isoformat microseconds). -/
def pad6 (n : Nat) : String :=
  if n < 10 then "00000" ++ natStr n
  else if n < 100 then "0000" ++ natStr n
  else if n < 1000 then "000" ++ natStr n
  else if n < 10000 then "00" ++ natStr n
  else if n < 100000 then "0" ++ natStr n
  else natStr n

/-- `%a` weekday abbreviation (C locale), indexed from Monday = 0. -/
def dayAbbrev (w : Nat) : String :=
  ["Mon", "Tue", "Wed", "Thu", "Fri", "Sat", "Sun"].getD w "Mon"

/-- `%b` month abbreviation (C locale), months numbered from 1. -/
def monthAbbrev (m : Nat) : String :=
  ["Jan", "Feb", "Mar", "Apr", "May", "Jun",
   "Jul", "Aug", "Sep", "Oct", "Nov", "Dec"].getD (m - 1) "Jan"

/-- `datetime.utcnow().strftime("%a, %d %b %Y %H:%M:%S GMT")` — the RFC-1123
timestamp of the signed request. -/
def strftimeRfc1123 (t : Tm) : String :=
  dayAbbrev t.wday ++ ", " ++ pad2 t.day ++ " " ++ monthAbbrev t.month ++ " "
    ++ pad4 t.year ++ " " ++ pad2 t.hour ++ ":" ++ pad2 t.minute ++ ":"
    ++ pad2 t.second ++ " GMT"

/-- `datetime.utcnow().isoformat()` (microseconds omitted when zero). -/
def isoformat (t : Tm) : String :=
  pad4 t.year ++ "-" ++ pad2 t.month ++ "-" ++ pad2 t.day ++ "T"
    ++ pad2 t.hour ++ ":" ++ pad2 t.minute ++ ":" ++ pad2 t.second
    ++ (if t.usec == 0 then "" else "." ++ pad6 t.usec)

/-! ### The signed ingestion request builder (`post_to_law`) -/

/-- The two app settings read at module load: `LOG_ANALYTICS_WORKSPACE_ID`
and `LOG_ANALYTICS_PRIMARY_KEY` (`os.environ.get` gives `none` when unset). -/
structure Config where
  wsId : Option String
  wsKey : Option String

/-- Python truthiness of `os.environ.get`'s result: falsy when unset or when
set to the empty string (`not WS_ID`). -/
def optFalsy : Option String → Bool
  | none => true
  | some s => s == ""

/-- The outbound HTTP request `requests.post` is given. -/
structure SignedRequest where
  url : String
  body : String
  headers : List (String × String)
  timeout : Nat

/-- What the network does with one POST: a response, or a raised
`requests.exceptions.RequestException` carrying a message. -/
inductive NetOutcome where
  | ok (status : Nat) (text : String)
  | exn (msg : String)

/-- What `post_to_law` returns, plus the list of POSTs it issued. -/
structure PostResult where
  status : Nat
  text : String
  calls : List SignedRequest

/-- The string-to-sign of `post_to_law` (lines 25-31): the f-string
`POST\n{len(body_json)}\napplication/json\nx-ms-date:{ts}\n/api/logs`.
Note `len` counts characters of the serialized body. -/
def law_string_to_hash (body_json ts : String) : String :=
  "POST\n" ++ natStr body_json.length ++ "\napplication/json\nx-ms-date:"
    ++ ts ++ "\n/api/logs"

/-- The signature of `post_to_law` (lines 32-35):
base64(HMAC-SHA256(base64-decoded key, UTF-8 bytes of the string-to-sign)). -/
def law_signature (wsKey body_json ts : String) : String :=
  b64encode (hmacSha256 (b64decode wsKey) (utf8Encode (law_string_to_hash body_json ts)))

/-- The request `post_to_law` builds once the configuration is present
(lines 22-46): URL, serialized body, the four headers, 10-second timeout. -/
def law_request (wsId wsKey : String) (body : JValue) (logType : String) (now : Tm) :
    SignedRequest :=
  let body_json := jsonDumps body
  let ts := strftimeRfc1123 now
  { url := "https://" ++ wsId ++ ".ods.opinsights.azure.com/api/logs?api-version=2016-04-01"
    body := body_json
    headers :=
      [("Content-Type", "application/json"),
       ("Authorization", "SharedKey " ++ wsId ++ ":" ++ law_signature wsKey body_json ts),
       ("Log-Type", logType),
       ("x-ms-date", ts)]
    timeout := 10 }

/-- `post_to_law` of `function_app.py` (lines 16-51). Refuses with
`(500, "Missing workspace configuration")` and no POST when either app
setting is falsy; otherwise issues exactly one POST of the built request and
returns the downstream status and text, catching a transport exception as a
`500` with the error message. -/
def post_to_law (cfg : Config) (body : JValue) (logType : String) (now : Tm)
    (net : SignedRequest → NetOutcome) : PostResult :=
  if optFalsy cfg.wsId || optFalsy cfg.wsKey then
    { status := 500, text := "Missing workspace configuration", calls := [] }
  else
    let req := law_request (cfg.wsId.getD "") (cfg.wsKey.getD "") body logType now
    match net req with
    | .ok s t => { status := s, text := t, calls := [req] }
    | .exn m =>
      { status := 500, text := "Error posting to Log Analytics: " ++ m, calls := [req] }

/-! ### The three HTTP handlers -/

/-- An `azure.functions.HttpResponse`. -/
structure HttpResponse where
  status : Nat
  body : String

/-- A handler run: the HTTP response plus the POSTs issued downstream. -/
structure HandlerOutcome where
  response : HttpResponse
  calls : List SignedRequest

/-- Python truthiness of a JSON value (`if not payload`). -/
def pyTruthy : JValue → Bool
  | .null => false
  | .bool b => b
  | .num n => !(n == 0)
  | .str s => !(s == "")
  | .arr xs => !xs.isEmpty
  | .obj fs => !fs.isEmpty

/-- The record `salesforceLogHandler` forwards (lines 96-99): default
`timestamp`, then default `sourceSystem = "Salesforce"`. -/
def salesforceProcess (fs : Rec') (now : Tm) : Rec' :=
  setDefault (setDefault fs "timestamp" (.str (isoformat now)))
    "sourceSystem" (.str "Salesforce")

/-- The record `mulesoftLogHandler` forwards (lines 127-130): default
`timestamp`, then default `sourceSystem = "MuleSoft"`. -/
def mulesoftProcess (fs : Rec') (now : Tm) : Rec' :=
  setDefault (setDefault fs "timestamp" (.str (isoformat now)))
    "sourceSystem" (.str "MuleSoft")

/-- The record `universalLogHandler` forwards (lines 161-162): default
`timestamp` only. -/
def universalProcess (fs : Rec') (now : Tm) : Rec' :=
  setDefault fs "timestamp" (.str (isoformat now))

/-- Python `k in payload` for an arbitrary payload: key lookup on a dict,
substring test on a string, `==`-membership on a list; numbers, booleans and
`None` are not iterable, a `TypeError`. -/
def pyInV (k : String) : JValue → Except String Bool
  | .obj fs => .ok (hasKey fs k)
  | .str s => .ok (strContains s k)
  | .arr xs => .ok (xs.any fun v => match v with | .str t => t == k | _ => false)
  | _ => .error "TypeError"

/-- The handlers' `if k not in payload: payload[k] = ...` on a truthy
non-dict payload: when the membership test finds `k` the assignment is
skipped and the payload is left as is; otherwise the item assignment on a
non-dict raises a `TypeError` (and the membership test itself raises on a
non-iterable). -/
def nonDictDefault (payload : JValue) (k : String) : Except String Unit :=
  match pyInV k payload with
  | .error e => .error e
  | .ok true => .ok ()
  | .ok false => .error "TypeError"

/-- `salesforceLogHandler` (lines 79-108). The parsed body arrives as
`Except String JValue` (`ValueError` for an empty or unparseable body); a
handler result of `.error` is an uncaught Python exception. A truthy
non-dict payload survives the two `in`-guarded default assignments only when
both keys test as "present" (substring of a string, member of a list); it is
then forwarded, since this handler never calls the classifier. -/
def salesforceLogHandler (parsed : Except String JValue) (now : Tm) (cfg : Config)
    (net : SignedRequest → NetOutcome) : Except String HandlerOutcome :=
  match parsed with
  | .error _ => .ok ⟨⟨400, "Invalid JSON"⟩, []⟩
  | .ok payload =>
    if pyTruthy payload then
      match payload with
      | .obj fs =>
        let fs2 := salesforceProcess fs now
        let r := post_to_law cfg (.obj fs2) "SalesforceEvent" now net
        if r.status == 200 then
          .ok ⟨⟨200, "Salesforce event logged successfully: " ++ r.text⟩, r.calls⟩
        else
          .ok ⟨⟨r.status, "Failed to log Salesforce event: " ++ r.text⟩, r.calls⟩
      | other =>
        match nonDictDefault other "timestamp" with
        | .error e => .error e
        | .ok _ =>
          match nonDictDefault other "sourceSystem" with
          | .error e => .error e
          | .ok _ =>
            let r := post_to_law cfg other "SalesforceEvent" now net
            if r.status == 200 then
              .ok ⟨⟨200, "Salesforce event logged successfully: " ++ r.text⟩, r.calls⟩
            else
              .ok ⟨⟨r.status, "Failed to log Salesforce event: " ++ r.text⟩, r.calls⟩
    else
      .ok ⟨⟨400, "Empty or invalid JSON payload"⟩, []⟩

/-- `mulesoftLogHandler` (lines 110-142); classification happens after the
two defaulted fields are filled in, and a classifier exception propagates.
A truthy non-dict payload that survives the `in`-guarded default assignments
still raises at classification (`.get` on a non-dict is an
`AttributeError`). -/
def mulesoftLogHandler (parsed : Except String JValue) (now : Tm) (cfg : Config)
    (net : SignedRequest → NetOutcome) : Except String HandlerOutcome :=
  match parsed with
  | .error _ => .ok ⟨⟨400, "Invalid JSON"⟩, []⟩
  | .ok payload =>
    if pyTruthy payload then
      match payload with
      | .obj fs =>
        let fs2 := mulesoftProcess fs now
        match determine_log_type fs2 with
        | .error e => .error e
        | .ok log_type =>
          let r := post_to_law cfg (.obj fs2) log_type now net
          if r.status == 200 then
            .ok ⟨⟨200, "MuleSoft event logged successfully to " ++ log_type ++ ": " ++ r.text⟩,
                r.calls⟩
          else
            .ok ⟨⟨r.status, "Failed to log MuleSoft event: " ++ r.text⟩, r.calls⟩
      | other =>
        match nonDictDefault other "timestamp" with
        | .error e => .error e
        | .ok _ =>
          match nonDictDefault other "sourceSystem" with
          | .error e => .error e
          | .ok _ => .error "AttributeError"
    else
      .ok ⟨⟨400, "Empty or invalid JSON payload"⟩, []⟩

/-- `universalLogHandler` (lines 144-174); only `timestamp` is defaulted.
A truthy non-dict payload that survives the `in`-guarded default assignment
still raises at classification (`.get` on a non-dict is an
`AttributeError`). -/
def universalLogHandler (parsed : Except String JValue) (now : Tm) (cfg : Config)
    (net : SignedRequest → NetOutcome) : Except String HandlerOutcome :=
  match parsed with
  | .error _ => .ok ⟨⟨400, "Invalid JSON"⟩, []⟩
  | .ok payload =>
    if pyTruthy payload then
      match payload with
      | .obj fs =>
        let fs2 := universalProcess fs now
        match determine_log_type fs2 with
        | .error e => .error e
        | .ok log_type =>
          let r := post_to_law cfg (.obj fs2) log_type now net
          if r.status == 200 then
            .ok ⟨⟨200, "Event logged successfully to " ++ log_type ++ ": " ++ r.text⟩, r.calls⟩
          else
            .ok ⟨⟨r.status, "Failed to log event: " ++ r.text⟩, r.calls⟩
      | other =>
        match nonDictDefault other "timestamp" with
        | .error e => .error e
        | .ok _ => .error "AttributeError"
    else
      .ok ⟨⟨400, "Empty or invalid JSON payload"⟩, []⟩

/-! ### Spec-side formulations and concrete fixtures -/

/-- Modelled from the spec (section 4.2 step 3): lines joined with a newline
and no trailing newline. -/
def joinWithNewline : List String → String
  | [] => ""
  | [x] => x
  | x :: y :: rest => x ++ "\n" ++ joinWithNewline (y :: rest)

/-- Modelled from the spec (claim C1): the five lines `POST`, the decimal
byte-length of the serialized body, `application/json`,
`x-ms-date:<timestamp>`, `/api/logs`, newline-joined. -/
def stringToSign_spec (body_json ts : String) : String :=
  joinWithNewline
    ["POST", natStr (utf8Encode body_json).length, "application/json",
     "x-ms-date:" ++ ts, "/api/logs"]

/-- A concrete instant for witnesses: Mon 06 Jan 2025 12:00:00 UTC. -/
def t0 : Tm := ⟨2025, 1, 6, 0, 12, 0, 0, 0⟩

/-- A concrete present configuration for witnesses. -/
def cfg0 : Config := ⟨some "w", some "QQ=="⟩

/-- A network oracle that always answers 200 `OK`. -/
def netOk200 : SignedRequest → NetOutcome := fun _ => .ok 200 "OK"

/-- Every character of `s` is ASCII. -/
def strAscii (s : String) : Prop := ∀ c ∈ s.data, c.toNat < 128

/-- Body of a handler's HTTP response (`""` for an uncaught exception). -/
def handlerBody : Except String HandlerOutcome → String
  | .ok o => o.response.body
  | .error _ => ""

/-- Body of the first downstream POST a handler issued (`""` if none). -/
def firstCallBody : Except String HandlerOutcome → String
  | .ok o => match o.calls with
    | r :: _ => r.body
    | [] => ""
  | .error _ => ""

/-- Status of a handler's HTTP response (`0` for an uncaught exception). -/
def handlerStatus : Except String HandlerOutcome → Nat
  | .ok o => o.response.status
  | .error _ => 0

/-! ## Helper lemmas -/

theorem strDataEq {a b : String} (h : a.data = b.data) : a = b := by
  cases a; cases b; exact congrArg String.mk h

theorem strDataAppend (a b : String) : (a ++ b).data = a.data ++ b.data := by
  cases a; cases b; rfl

theorem strAsciiAppend {a b : String} (ha : strAscii a) (hb : strAscii b) :
    strAscii (a ++ b) := by
  intro c hc
  rw [strDataAppend] at hc
  rcases List.mem_append.1 hc with h | h
  · exact ha c h
  · exact hb c h

theorem nibbleChar_lt (n : Nat) : (nibbleChar n).toNat < 128 := by
  unfold nibbleChar; split <;> decide

theorem hex4_ascii (n : Nat) : ∀ c ∈ hex4 n, c.toNat < 128 := by
  intro c hc
  simp only [hex4, List.mem_cons, List.not_mem_nil, or_false] at hc
  rcases hc with h | h | h | h <;> subst h <;> apply nibbleChar_lt

theorem natReprAux_ascii (fuel n : Nat) (acc : List Char)
    (hacc : ∀ c ∈ acc, c.toNat < 128) : ∀ c ∈ natReprAux fuel n acc, c.toNat < 128 := by
  induction fuel generalizing n acc with
  | zero => cases n <;> simpa [natReprAux] using hacc
  | succ fuel ih =>
    cases n with
    | zero => simpa [natReprAux] using hacc
    | succ n =>
      rw [natReprAux]
      refine ih _ _ ?_
      intro c hc
      rcases List.mem_cons.1 hc with h | h
      · subst h; apply nibbleChar_lt
      · exact hacc c h

theorem natRepr_ascii (n : Nat) : ∀ c ∈ natRepr n, c.toNat < 128 := by
  match n with
  | 0 => intro c hc; simp [natRepr] at hc; subst hc; decide
  | n + 1 => exact natReprAux_ascii (n + 1) (n + 1) [] (by simp)

theorem intRepr_ascii (i : Int) : ∀ c ∈ intRepr i, c.toNat < 128 := by
  unfold intRepr
  split
  · intro c hc
    rcases List.mem_cons.1 hc with h | h
    · subst h; decide
    · exact natRepr_ascii _ c h
  · exact natRepr_ascii _

theorem escChar_ascii (c : Char) : ∀ d ∈ escChar c, d.toNat < 128 := by
  intro d hd
  unfold escChar at hd
  split at hd
  · fin_cases hd <;> decide
  · split at hd
    · fin_cases hd <;> decide
    · split at hd
      · fin_cases hd <;> decide
      · split at hd
        · fin_cases hd <;> decide
        · split at hd
          · fin_cases hd <;> decide
          · split at hd
            · fin_cases hd <;> decide
            · split at hd
              · fin_cases hd <;> decide
              · rename_i hrange
                split at hd
                · split at hd
                  · rcases List.mem_cons.1 hd with rfl | hd2
                    · decide
                    rcases List.mem_cons.1 hd2 with rfl | hd3
                    · decide
                    exact hex4_ascii _ d hd3
                  · rcases List.mem_append.1 hd with hu | hu <;>
                      (rcases List.mem_cons.1 hu with rfl | hu2
                       · decide
                       rcases List.mem_cons.1 hu2 with rfl | hu3
                       · decide
                       exact hex4_ascii _ d hu3)
                · simp at hd
                  subst hd
                  omega

theorem escString_ascii (s : String) : strAscii (escString s) := by
  intro c hc
  simp only [escString] at hc
  rcases List.mem_cons.1 hc with h | h
  · subst h; decide
  · rcases List.mem_append.1 h with h2 | h2
    · rcases List.mem_flatten.1 h2 with ⟨l, hl, hcl⟩
      rcases List.mem_map.1 hl with ⟨ch, _, rfl⟩
      exact escChar_ascii ch c hcl
    · simp at h2; subst h2; decide

theorem strAscii_of_all (s : String)
    (h : (s.data.all fun c => c.toNat < 128) = true) : strAscii s := by
  intro c hc
  have := List.all_eq_true.1 h c hc
  simpa using this

mutual

theorem jsonDumps_ascii : (v : JValue) → strAscii (jsonDumps v)
  | .null => by simp only [jsonDumps]; exact strAscii_of_all _ rfl
  | .bool true => by simp only [jsonDumps]; exact strAscii_of_all _ rfl
  | .bool false => by simp only [jsonDumps]; exact strAscii_of_all _ rfl
  | .num n => by
    intro c hc
    simp only [jsonDumps] at hc
    exact intRepr_ascii n c hc
  | .str s => by
    intro c hc
    simp only [jsonDumps] at hc
    exact escString_ascii s c hc
  | .arr xs => by
    simp only [jsonDumps]
    exact strAsciiAppend (strAsciiAppend (strAscii_of_all _ rfl) (dumpArr_ascii xs))
      (strAscii_of_all _ rfl)
  | .obj fs => by
    simp only [jsonDumps]
    exact strAsciiAppend (strAsciiAppend (strAscii_of_all _ rfl) (dumpObj_ascii fs))
      (strAscii_of_all _ rfl)

theorem dumpArr_ascii : (xs : List JValue) → strAscii (dumpArr xs)
  | [] => by intro c hc; simp [dumpArr] at hc
  | [x] => by
    simp only [dumpArr]
    exact jsonDumps_ascii x
  | x :: y :: rest => by
    simp only [dumpArr]
    exact strAsciiAppend (strAsciiAppend (jsonDumps_ascii x) (strAscii_of_all _ rfl))
      (dumpArr_ascii (y :: rest))

theorem dumpObj_ascii : (fs : List (String × JValue)) → strAscii (dumpObj fs)
  | [] => by intro c hc; simp [dumpObj] at hc
  | [(k, v)] => by
    simp only [dumpObj]
    exact strAsciiAppend (strAsciiAppend (escString_ascii k) (strAscii_of_all _ rfl))
      (jsonDumps_ascii v)
  | (k, v) :: p :: rest => by
    simp only [dumpObj]
    exact strAsciiAppend
      (strAsciiAppend
        (strAsciiAppend (strAsciiAppend (escString_ascii k) (strAscii_of_all _ rfl))
          (jsonDumps_ascii v))
        (strAscii_of_all _ rfl))
      (dumpObj_ascii (p :: rest))

end

theorem utf8Char_ascii {c : Char} (h : c.toNat < 128) : utf8Char c = [c.toNat] := by
  simp [utf8Char, h]

theorem utf8EncodeL_length (l : List Char) (h : ∀ c ∈ l, c.toNat < 128) :
    (utf8EncodeL l).length = l.length := by
  induction l with
  | nil => rfl
  | cons c cs ih =>
    simp only [utf8EncodeL, List.length_append, List.length_cons]
    rw [utf8Char_ascii (h c (List.mem_cons_self c cs)),
        ih (fun d hd => h d (List.mem_cons_of_mem c hd))]
    simp [Nat.add_comm]

theorem utf8Encode_length {s : String} (h : strAscii s) :
    (utf8Encode s).length = s.length := by
  exact utf8EncodeL_length s.data h

theorem stringToSign_eq (body_json ts : String) (h : strAscii body_json) :
    law_string_to_hash body_json ts = stringToSign_spec body_json ts := by
  unfold law_string_to_hash stringToSign_spec
  rw [utf8Encode_length h]
  apply strDataEq
  simp only [joinWithNewline, strDataAppend, List.append_assoc]
  rfl

theorem jsonDumps_length_utf8 (v : JValue) :
    (utf8Encode (jsonDumps v)).length = (jsonDumps v).length :=
  utf8Encode_length (jsonDumps_ascii v)

theorem hasKey_eq_isSome (fs : Rec') (k : String) :
    hasKey fs k = (lookupField fs k).isSome := by
  induction fs with
  | nil => rfl
  | cons p rest ih =>
    obtain ⟨k', v⟩ := p
    simp only [hasKey, List.any_cons, lookupField]
    by_cases h : (k' == k) = true
    · simp [h]
    · simp only [Bool.not_eq_true] at h
      simp [h, ← ih, hasKey]

theorem lookupField_append_absent {fs : Rec'} {k : String}
    (h : lookupField fs k = none) (v : JValue) :
    lookupField (fs ++ [(k, v)]) k = some v := by
  induction fs with
  | nil => simp [lookupField]
  | cons p rest ih =>
    obtain ⟨k', w⟩ := p
    by_cases hk : (k' == k) = true
    · simp [lookupField, hk] at h
    · simp only [Bool.not_eq_true] at hk
      simp only [lookupField, hk, List.cons_append, Bool.false_eq_true, if_false] at h ⊢
      exact ih h

theorem lookupField_append_other {fs : Rec'} {k k' : String}
    (h : k' ≠ k) (v : JValue) :
    lookupField (fs ++ [(k', v)]) k = lookupField fs k := by
  induction fs with
  | nil => simp [lookupField, h]
  | cons p rest ih =>
    obtain ⟨k2, w⟩ := p
    simp only [lookupField, List.cons_append]
    by_cases hk : (k2 == k) = true
    · simp [hk]
    · simp only [Bool.not_eq_true] at hk
      simp [hk, ih]

theorem setDefault_lookup_other {fs : Rec'} {k k' : String}
    (h : k' ≠ k) (v : JValue) :
    lookupField (setDefault fs k' v) k = lookupField fs k := by
  unfold setDefault
  split
  · rfl
  · exact lookupField_append_other h v

theorem setDefault_lookup_self (fs : Rec') (k : String) (v : JValue) :
    (lookupField (setDefault fs k v) k).isSome = true := by
  unfold setDefault
  split
  · rename_i h
    rw [hasKey_eq_isSome] at h
    exact h
  · rename_i h
    rw [hasKey_eq_isSome] at h
    rcases hl : lookupField fs k with _ | w
    · rw [lookupField_append_absent hl v]; rfl
    · rw [hl] at h; simp at h

theorem setDefault_lookup_absent {fs : Rec'} {k : String}
    (h : lookupField fs k = none) (v : JValue) :
    lookupField (setDefault fs k v) k = some v := by
  unfold setDefault
  rw [hasKey_eq_isSome, h]
  simpa using lookupField_append_absent h v

theorem setDefault_lookup_present {fs : Rec'} {k : String} {w : JValue}
    (h : lookupField fs k = some w) (v : JValue) :
    lookupField (setDefault fs k v) k = some w := by
  unfold setDefault
  rw [hasKey_eq_isSome, h]
  simp [h]

theorem optStr_get {fs : Rec'} {k : String} (h : optStr (lookupField fs k) = true) :
    pyGet fs k (.str "") = .str (getStrD fs k) := by
  unfold pyGet getStrD
  rcases hl : lookupField fs k with _ | v
  · rfl
  · rw [hl] at h
    cases v <;> first | rfl | simp [optStr] at h

theorem optNum_get {fs : Rec'} {k : String} (h : optNum (lookupField fs k) = true) :
    pyGet fs k (.num 0) = .num (getIntD fs k 0) := by
  unfold pyGet getIntD
  rcases hl : lookupField fs k with _ | v
  · rfl
  · rw [hl] at h
    cases v <;> first | rfl | simp [optNum] at h

theorem muleBranch_eq (fs : Rec') (sc : Int) :
    (if hasKey fs "latency" || hasKey fs "responseTime" then
       (Except.ok "MuleSoftPerformance" : Except String String)
     else
       match (if hasKey fs "error" then (Except.ok true : Except String Bool)
              else Except.ok (decide (400 ≤ sc))) with
       | .error e => .error e
       | .ok isErr =>
         if isErr then .ok "MuleSoftError"
         else if hasKey fs "uptime" || hasKey fs "availability" then .ok "MuleSoftUptime"
         else .ok "MuleSoftGeneral")
    = .ok (if hasKey fs "latency" || hasKey fs "responseTime" then "MuleSoftPerformance"
           else if hasKey fs "error" || decide (400 ≤ sc) then "MuleSoftError"
           else if hasKey fs "uptime" || hasKey fs "availability" then "MuleSoftUptime"
           else "MuleSoftGeneral") := by
  by_cases hp : (hasKey fs "latency" || hasKey fs "responseTime") = true
  · simp [hp]
  · simp only [Bool.not_eq_true] at hp
    by_cases he : hasKey fs "error" = true
    · simp [hp, he]
    · simp only [Bool.not_eq_true] at he
      by_cases hsc : (400 ≤ sc)
      · simp [hp, he, hsc]
      · by_cases hu : (hasKey fs "uptime" || hasKey fs "availability") = true
        · simp [hp, he, hsc, hu]
        · simp only [Bool.not_eq_true] at hu
          simp [hp, he, hsc, hu]

theorem dlt_eq_spec (fs : Rec') (h : wellTypedFields fs = true) :
    determine_log_type fs = .ok (classify_spec fs) := by
  unfold wellTypedFields at h
  rw [Bool.and_eq_true, Bool.and_eq_true] at h
  obtain ⟨⟨h1, h2⟩, h3⟩ := h
  unfold determine_log_type classify_spec
  rw [optStr_get h1, optStr_get h2, optNum_get h3]
  simp only [pyLowerV, pyStartsWithV, pyGeNumV, eventTypeMem]
  by_cases hm : (asciiLower (getStrD fs "sourceSystem") == "mulesoft") = true
  · simp only [hm, Bool.true_or, if_true]
    exact muleBranch_eq fs (getIntD fs "statusCode" 0)
  · simp only [Bool.not_eq_true] at hm
    simp only [hm, Bool.false_eq_true, if_false, Bool.false_or]
    by_cases hsw : strStartsWith (getStrD fs "eventType") "MuleSoft" = true
    · simp only [hsw, if_true]
      exact muleBranch_eq fs (getIntD fs "statusCode" 0)
    · simp only [Bool.not_eq_true] at hsw
      simp only [hsw, Bool.false_eq_true, if_false]
      simp [Bool.or_assoc, apply_ite]
      split <;> intros <;> simp_all [Bool.not_eq_true]

theorem classify_spec_mem (fs : Rec') : classify_spec fs ∈ sixCategories := by
  simp only [classify_spec]
  split
  · split
    · decide
    · split
      · decide
      · split <;> decide
  · split <;> decide

theorem dlt_muleSource {fs : Rec'}
    (h : lookupField fs "sourceSystem" = some (.str "MuleSoft")) :
    ∀ c, determine_log_type fs = .ok c → c ∈ muleCategories := by
  intro c hc
  unfold determine_log_type at hc
  rw [show pyGet fs "sourceSystem" (.str "") = .str "MuleSoft" by simp [pyGet, h]] at hc
  simp only [pyLowerV] at hc
  rw [show (asciiLower "MuleSoft" == "mulesoft") = true from rfl] at hc
  simp only [if_true] at hc
  split at hc
  · injection hc with h2; subst h2; decide
  · split at hc
    · cases hc
    · split at hc
      · injection hc with h2; subst h2; decide
      · split at hc
        · injection hc with h2; subst h2; decide
        · injection hc with h2; subst h2; decide

theorem mulesoftProcess_source {fs : Rec'}
    (h : lookupField fs "sourceSystem" = none) (now : Tm) :
    lookupField (mulesoftProcess fs now) "sourceSystem" = some (.str "MuleSoft") := by
  unfold mulesoftProcess
  have h2 : lookupField (setDefault fs "timestamp" (.str (isoformat now))) "sourceSystem"
      = none := by
    rw [setDefault_lookup_other (by decide) _]
    exact h
  exact setDefault_lookup_absent h2 _

/-! ## Claim theorems -/

/-- Claim C1: the builder's signature is exactly
base64(HMAC-SHA256(base64-decoded shared key, UTF-8 bytes of the
string-to-sign)), where the string-to-sign is the five lines `POST`, the
decimal byte-length of the serialized body, `application/json`,
`x-ms-date:<timestamp>`, `/api/logs`, newline-joined with no trailing
newline; and identical (key bytes, body, timestamp string) give an identical
signature on every call. -/
theorem C1_signature_shape (key : String) (body : JValue) (ts : String)
    (key2 : String) (body2 : JValue) (ts2 : String)
    (hk : b64decode key = b64decode key2) (hb : jsonDumps body = jsonDumps body2)
    (ht : ts = ts2) :
    law_signature key (jsonDumps body) ts
      = b64encode (hmacSha256 (b64decode key)
          (utf8Encode (stringToSign_spec (jsonDumps body) ts)))
    ∧ law_signature key (jsonDumps body) ts
      = law_signature key2 (jsonDumps body2) ts2 := by
  constructor
  · unfold law_signature
    rw [stringToSign_eq _ _ (jsonDumps_ascii body)]
  · unfold law_signature
    rw [hk, hb, ht]

/-- Witness for C1 at a concrete key, record and timestamp. -/
theorem C1_signature_shape_witness :
    b64decode "QQ==" = b64decode "QQ=="
    ∧ (law_signature "QQ==" (jsonDumps (.obj [("a", .num 1)])) "TS"
        = b64encode (hmacSha256 (b64decode "QQ==")
            (utf8Encode (stringToSign_spec (jsonDumps (.obj [("a", .num 1)])) "TS")))
      ∧ law_signature "QQ==" (jsonDumps (.obj [("a", .num 1)])) "TS"
        = law_signature "QQ==" (jsonDumps (.obj [("a", .num 1)])) "TS") :=
  ⟨rfl, C1_signature_shape "QQ==" (.obj [("a", .num 1)]) "TS"
    "QQ==" (.obj [("a", .num 1)]) "TS" rfl rfl rfl⟩

/-- Claim C2: on records whose inspected fields are well typed (the only ones
on which the claim's decision procedure is defined), `determine_log_type`
returns exactly the first-match decision order the claim states, embodied by
`classify_spec`. -/
theorem C2_decision_order (fs : Rec') (h : wellTypedFields fs = true) :
    determine_log_type fs = .ok (classify_spec fs) :=
  dlt_eq_spec fs h

/-- Witness for C2 on a concrete MuleSoft performance record. -/
theorem C2_decision_order_witness :
    wellTypedFields [("sourceSystem", JValue.str "MuleSoft"), ("responseTime", JValue.num 100)]
      = true
    ∧ determine_log_type
        [("sourceSystem", JValue.str "MuleSoft"), ("responseTime", JValue.num 100)]
      = .ok (classify_spec
          [("sourceSystem", JValue.str "MuleSoft"), ("responseTime", JValue.num 100)]) :=
  ⟨rfl, C2_decision_order _ rfl⟩

/-- Counterexample to claim C5 as stated: on a record whose `sourceSystem` is
a number, `determine_log_type` raises (`.lower()` on a non-string is an
`AttributeError`) instead of returning a category. -/
theorem C5_total_counterexample :
    determine_log_type [("sourceSystem", JValue.num 5)] = .error "AttributeError" := rfl

/-- Claim C5 (amended): the classifier is total and yields one of the six
categories on every record whose `eventType`/`sourceSystem` are strings and
whose `statusCode` is numeric, when present. -/
theorem C5_total_on_wellTyped (fs : Rec') (h : wellTypedFields fs = true) :
    ∃ c, determine_log_type fs = .ok c ∧ c ∈ sixCategories :=
  ⟨classify_spec fs, dlt_eq_spec fs h, classify_spec_mem fs⟩

/-- Witness for the amended C5 on a concrete record. -/
theorem C5_total_on_wellTyped_witness :
    wellTypedFields [("foo", JValue.str "bar")] = true
    ∧ ∃ c, determine_log_type [("foo", JValue.str "bar")] = .ok c ∧ c ∈ sixCategories :=
  ⟨rfl, C5_total_on_wellTyped _ rfl⟩

/-- Claim C3: with the configuration present, the built request carries
exactly the four headers `Content-Type: application/json`,
`Authorization: SharedKey <id>:<signature>`, `Log-Type: <category>` and
`x-ms-date` set to the same timestamp the string-to-sign uses; the URL is
`https://<id>.ods.opinsights.azure.com/api/logs?api-version=2016-04-01`
(fixed collection host), and the timestamp is the clock formatted by
`%a, %d %b %Y %H:%M:%S GMT`, hence it carries a ` GMT` suffix. -/
theorem C3_request_shape (wsId wsKey : String) (body : JValue) (lt : String) (now : Tm)
    (net : SignedRequest → NetOutcome) (h1 : wsId ≠ "") (h2 : wsKey ≠ "") :
    (post_to_law ⟨some wsId, some wsKey⟩ body lt now net).calls
      = [law_request wsId wsKey body lt now]
    ∧ (law_request wsId wsKey body lt now).headers
      = [("Content-Type", "application/json"),
         ("Authorization", "SharedKey " ++ wsId ++ ":"
            ++ law_signature wsKey (jsonDumps body) (strftimeRfc1123 now)),
         ("Log-Type", lt),
         ("x-ms-date", strftimeRfc1123 now)]
    ∧ (law_request wsId wsKey body lt now).url
      = "https://" ++ wsId ++ ".ods.opinsights.azure.com/api/logs?api-version=2016-04-01"
    ∧ ∃ core, strftimeRfc1123 now = core ++ " GMT" := by
  refine ⟨?_, rfl, rfl, ⟨_, rfl⟩⟩
  have hf1 : optFalsy (some wsId) = false := by
    simp [optFalsy, h1]
  have hf2 : optFalsy (some wsKey) = false := by
    simp [optFalsy, h2]
  unfold post_to_law
  simp only [hf1, hf2, Bool.or_self, Bool.false_eq_true, if_false, Option.getD_some]
  cases net (law_request wsId wsKey body lt now) <;> rfl

/-- Witness for C3 at a concrete configuration, record and clock. -/
theorem C3_request_shape_witness :
    ("w" : String) ≠ "" ∧ ("QQ==" : String) ≠ ""
    ∧ ((post_to_law ⟨some "w", some "QQ=="⟩ (.obj [("a", .str "b")]) "T" t0 netOk200).calls
        = [law_request "w" "QQ==" (.obj [("a", .str "b")]) "T" t0]
      ∧ (law_request "w" "QQ==" (.obj [("a", .str "b")]) "T" t0).headers
        = [("Content-Type", "application/json"),
           ("Authorization", "SharedKey " ++ "w" ++ ":"
              ++ law_signature "QQ==" (jsonDumps (.obj [("a", .str "b")])) (strftimeRfc1123 t0)),
           ("Log-Type", "T"),
           ("x-ms-date", strftimeRfc1123 t0)]
      ∧ (law_request "w" "QQ==" (.obj [("a", .str "b")]) "T" t0).url
        = "https://" ++ "w" ++ ".ods.opinsights.azure.com/api/logs?api-version=2016-04-01"
      ∧ ∃ core, strftimeRfc1123 t0 = core ++ " GMT") :=
  ⟨by decide, by decide,
    C3_request_shape "w" "QQ==" (.obj [("a", .str "b")]) "T" t0 netOk200
      (by decide) (by decide)⟩

/-- Claim C4: with the workspace id or key unset, `post_to_law` refuses:
it returns the 500-class configuration error, builds no request and issues
no network call (the result is the same whatever the network would do). -/
theorem C4_missing_config (cfg : Config) (body : JValue) (lt : String) (now : Tm)
    (net : SignedRequest → NetOutcome) (h : cfg.wsId = none ∨ cfg.wsKey = none) :
    post_to_law cfg body lt now net
      = { status := 500, text := "Missing workspace configuration", calls := [] }
    ∧ 500 ≤ (post_to_law cfg body lt now net).status
    ∧ (post_to_law cfg body lt now net).status < 600 := by
  have hc : (optFalsy cfg.wsId || optFalsy cfg.wsKey) = true := by
    rcases h with h | h <;> simp [h, optFalsy]
  have hmain : post_to_law cfg body lt now net
      = { status := 500, text := "Missing workspace configuration", calls := [] } := by
    unfold post_to_law
    simp [hc]
  exact ⟨hmain, by rw [hmain], by rw [hmain]; decide⟩

/-- Witness for C4 with the workspace id unset. -/
theorem C4_missing_config_witness :
    ((⟨none, some "QQ=="⟩ : Config).wsId = none ∨ (⟨none, some "QQ=="⟩ : Config).wsKey = none)
    ∧ (post_to_law ⟨none, some "QQ=="⟩ (.obj []) "T" t0 netOk200
        = { status := 500, text := "Missing workspace configuration", calls := [] }
      ∧ 500 ≤ (post_to_law ⟨none, some "QQ=="⟩ (.obj []) "T" t0 netOk200).status
      ∧ (post_to_law ⟨none, some "QQ=="⟩ (.obj []) "T" t0 netOk200).status < 600) :=
  ⟨Or.inl rfl, C4_missing_config ⟨none, some "QQ=="⟩ (.obj []) "T" t0 netOk200 (Or.inl rfl)⟩

/-- Claim C7: with the configuration present, `post_to_law` issues exactly
one POST of the built request (no retry), with a 10-second timeout, and
never raises: a downstream response is returned as its numeric status and
raw text, and a transport exception is caught and returned as a 500 with the
error message attached. -/
theorem C7_send_behavior (wsId wsKey : String) (body : JValue) (lt : String) (now : Tm)
    (net : SignedRequest → NetOutcome) (h1 : wsId ≠ "") (h2 : wsKey ≠ "") :
    (post_to_law ⟨some wsId, some wsKey⟩ body lt now net).calls
      = [law_request wsId wsKey body lt now]
    ∧ (law_request wsId wsKey body lt now).timeout = 10
    ∧ (∀ s t, net (law_request wsId wsKey body lt now) = .ok s t →
        post_to_law ⟨some wsId, some wsKey⟩ body lt now net
          = { status := s, text := t, calls := [law_request wsId wsKey body lt now] })
    ∧ (∀ m, net (law_request wsId wsKey body lt now) = .exn m →
        post_to_law ⟨some wsId, some wsKey⟩ body lt now net
          = { status := 500, text := "Error posting to Log Analytics: " ++ m,
              calls := [law_request wsId wsKey body lt now] }) := by
  have hf1 : optFalsy (some wsId) = false := by simp [optFalsy, h1]
  have hf2 : optFalsy (some wsKey) = false := by simp [optFalsy, h2]
  refine ⟨?_, rfl, ?_, ?_⟩
  · unfold post_to_law
    simp only [hf1, hf2, Bool.or_self, Bool.false_eq_true, if_false, Option.getD_some]
    cases net (law_request wsId wsKey body lt now) <;> rfl
  · intro s t hnet
    unfold post_to_law
    simp only [hf1, hf2, Bool.or_self, Bool.false_eq_true, if_false, Option.getD_some, hnet]
  · intro m hnet
    unfold post_to_law
    simp only [hf1, hf2, Bool.or_self, Bool.false_eq_true, if_false, Option.getD_some, hnet]

/-- Witness for C7: concrete configuration, record, clock and a network that
answers 200 `OK`. -/
theorem C7_send_behavior_witness :
    ("w" : String) ≠ "" ∧ ("QQ==" : String) ≠ ""
    ∧ netOk200 (law_request "w" "QQ==" (.obj []) "T" t0) = .ok 200 "OK"
    ∧ post_to_law ⟨some "w", some "QQ=="⟩ (.obj []) "T" t0 netOk200
      = { status := 200, text := "OK", calls := [law_request "w" "QQ==" (.obj []) "T" t0] } :=
  ⟨by decide, by decide, rfl,
    (C7_send_behavior "w" "QQ==" (.obj []) "T" t0 netOk200 (by decide) (by decide)).2.2.1
      200 "OK" rfl⟩

/-- Counterexample to claim C6 as stated: on a successful downstream send
(status 200, body `OK`), the handler's 200 confirmation does not include the
downstream status — the string `200` does not occur in it (the code
interpolates the downstream response text, not the status). -/
theorem C6_counterexample :
    handlerStatus (universalLogHandler (.ok (.obj [("foo", JValue.str "bar")]))
        t0 cfg0 netOk200) = 200
    ∧ strContains (handlerBody (universalLogHandler (.ok (.obj [("foo", JValue.str "bar")]))
        t0 cfg0 netOk200)) "200" = false :=
  ⟨rfl, rfl⟩

/-- Claim C6 (amended): a parse failure yields 400 `Invalid JSON`; when the
downstream send returns 200 the handler responds 200 with a confirmation
that includes the downstream response text; when it returns any other
status the handler's response status equals the downstream status (and the
body carries the downstream text). -/
theorem C6_handler_responses (e : String) (now : Tm) (cfg : Config)
    (net : SignedRequest → NetOutcome) (fs : Rec') (lt : String)
    (hne : fs.isEmpty = false)
    (hlt : determine_log_type (universalProcess fs now) = .ok lt) :
    universalLogHandler (.error e) now cfg net = .ok ⟨⟨400, "Invalid JSON"⟩, []⟩
    ∧ ((post_to_law cfg (.obj (universalProcess fs now)) lt now net).status = 200 →
        universalLogHandler (.ok (.obj fs)) now cfg net
          = .ok ⟨⟨200, "Event logged successfully to " ++ lt ++ ": "
              ++ (post_to_law cfg (.obj (universalProcess fs now)) lt now net).text⟩,
              (post_to_law cfg (.obj (universalProcess fs now)) lt now net).calls⟩)
    ∧ ((post_to_law cfg (.obj (universalProcess fs now)) lt now net).status ≠ 200 →
        universalLogHandler (.ok (.obj fs)) now cfg net
          = .ok ⟨⟨(post_to_law cfg (.obj (universalProcess fs now)) lt now net).status,
              "Failed to log event: "
                ++ (post_to_law cfg (.obj (universalProcess fs now)) lt now net).text⟩,
              (post_to_law cfg (.obj (universalProcess fs now)) lt now net).calls⟩) := by
  refine ⟨rfl, ?_, ?_⟩
  · intro hs
    unfold universalLogHandler
    simp only [pyTruthy, hne, Bool.not_false, if_true, hlt, hs, beq_self_eq_true]
  · intro hs
    have hb : ((post_to_law cfg (.obj (universalProcess fs now)) lt now net).status == 200)
        = false := by
      simpa using hs
    unfold universalLogHandler
    simp only [pyTruthy, hne, Bool.not_false, if_true, hlt, hb, Bool.false_eq_true, if_false]

/-- Witness for the amended C6: concrete record, clock, configuration and a
network answering 200 `OK`. -/
theorem C6_handler_responses_witness :
    ([("foo", JValue.str "bar")] : Rec').isEmpty = false
    ∧ determine_log_type (universalProcess [("foo", JValue.str "bar")] t0)
        = .ok "GeneralEvent"
    ∧ (universalLogHandler (.error "x") t0 cfg0 netOk200 = .ok ⟨⟨400, "Invalid JSON"⟩, []⟩
      ∧ ((post_to_law cfg0 (.obj (universalProcess [("foo", JValue.str "bar")] t0))
            "GeneralEvent" t0 netOk200).status = 200 →
          universalLogHandler (.ok (.obj [("foo", JValue.str "bar")])) t0 cfg0 netOk200
            = .ok ⟨⟨200, "Event logged successfully to " ++ "GeneralEvent" ++ ": "
                ++ (post_to_law cfg0 (.obj (universalProcess [("foo", JValue.str "bar")] t0))
                    "GeneralEvent" t0 netOk200).text⟩,
                (post_to_law cfg0 (.obj (universalProcess [("foo", JValue.str "bar")] t0))
                  "GeneralEvent" t0 netOk200).calls⟩)
      ∧ ((post_to_law cfg0 (.obj (universalProcess [("foo", JValue.str "bar")] t0))
            "GeneralEvent" t0 netOk200).status ≠ 200 →
          universalLogHandler (.ok (.obj [("foo", JValue.str "bar")])) t0 cfg0 netOk200
            = .ok ⟨⟨(post_to_law cfg0 (.obj (universalProcess [("foo", JValue.str "bar")] t0))
                  "GeneralEvent" t0 netOk200).status,
                "Failed to log event: "
                  ++ (post_to_law cfg0 (.obj (universalProcess [("foo", JValue.str "bar")] t0))
                      "GeneralEvent" t0 netOk200).text⟩,
                (post_to_law cfg0 (.obj (universalProcess [("foo", JValue.str "bar")] t0))
                  "GeneralEvent" t0 netOk200).calls⟩)) :=
  ⟨rfl, rfl, C6_handler_responses "x" t0 cfg0 netOk200 [("foo", JValue.str "bar")]
    "GeneralEvent" rfl rfl⟩

/-- Counterexample to claim C8 as stated: the universal handler does not
fill in `sourceSystem` — a record without it is processed and forwarded
still without it (the serialized request body never mentions the key). -/
theorem C8_counterexample :
    lookupField (universalProcess [("foo", JValue.str "bar")] t0) "sourceSystem" = none
    ∧ strContains (firstCallBody (universalLogHandler (.ok (.obj [("foo", JValue.str "bar")]))
        t0 cfg0 netOk200)) "sourceSystem" = false :=
  ⟨rfl, by rfl⟩

/-- Claim C8 (amended): the Salesforce and MuleSoft handlers fill in
`timestamp` and `sourceSystem` when absent and the universal handler fills
in `timestamp` only; every other field of the record is forwarded unchanged,
and a `timestamp`/`sourceSystem` already present keeps its value. -/
theorem C8_frame (fs : Rec') (now : Tm) :
    (lookupField (salesforceProcess fs now) "timestamp").isSome = true
    ∧ (lookupField (salesforceProcess fs now) "sourceSystem").isSome = true
    ∧ (lookupField (mulesoftProcess fs now) "timestamp").isSome = true
    ∧ (lookupField (mulesoftProcess fs now) "sourceSystem").isSome = true
    ∧ (lookupField (universalProcess fs now) "timestamp").isSome = true
    ∧ (∀ k, k ≠ "timestamp" → k ≠ "sourceSystem" →
        lookupField (salesforceProcess fs now) k = lookupField fs k
        ∧ lookupField (mulesoftProcess fs now) k = lookupField fs k)
    ∧ (∀ k, k ≠ "timestamp" → lookupField (universalProcess fs now) k = lookupField fs k)
    ∧ (∀ v, lookupField fs "timestamp" = some v →
        lookupField (salesforceProcess fs now) "timestamp" = some v
        ∧ lookupField (mulesoftProcess fs now) "timestamp" = some v
        ∧ lookupField (universalProcess fs now) "timestamp" = some v)
    ∧ (∀ v, lookupField fs "sourceSystem" = some v →
        lookupField (salesforceProcess fs now) "sourceSystem" = some v
        ∧ lookupField (mulesoftProcess fs now) "sourceSystem" = some v) := by
  have hts : ("sourceSystem" : String) ≠ "timestamp" := by decide
  refine ⟨?_, ?_, ?_, ?_, ?_, ?_, ?_, ?_, ?_⟩
  · unfold salesforceProcess
    rw [setDefault_lookup_other hts]
    exact setDefault_lookup_self fs "timestamp" _
  · exact setDefault_lookup_self _ "sourceSystem" _
  · unfold mulesoftProcess
    rw [setDefault_lookup_other hts]
    exact setDefault_lookup_self fs "timestamp" _
  · exact setDefault_lookup_self _ "sourceSystem" _
  · exact setDefault_lookup_self fs "timestamp" _
  · intro k hk1 hk2
    constructor
    · unfold salesforceProcess
      rw [setDefault_lookup_other (Ne.symm hk2), setDefault_lookup_other (Ne.symm hk1)]
    · unfold mulesoftProcess
      rw [setDefault_lookup_other (Ne.symm hk2), setDefault_lookup_other (Ne.symm hk1)]
  · intro k hk1
    unfold universalProcess
    rw [setDefault_lookup_other (Ne.symm hk1)]
  · intro v hv
    refine ⟨?_, ?_, setDefault_lookup_present hv _⟩
    · unfold salesforceProcess
      rw [setDefault_lookup_other hts]
      exact setDefault_lookup_present hv _
    · unfold mulesoftProcess
      rw [setDefault_lookup_other hts]
      exact setDefault_lookup_present hv _
  · intro v hv
    constructor
    · unfold salesforceProcess
      refine setDefault_lookup_present ?_ _
      rw [setDefault_lookup_other (Ne.symm hts)]
      exact hv
    · unfold mulesoftProcess
      refine setDefault_lookup_present ?_ _
      rw [setDefault_lookup_other (Ne.symm hts)]
      exact hv

/-- Witness for the amended C8: a field other than the two defaulted ones is
forwarded unchanged by the Salesforce handler's processing. -/
theorem C8_frame_witness :
    ("a" : String) ≠ "timestamp" ∧ ("a" : String) ≠ "sourceSystem"
    ∧ lookupField (salesforceProcess [("a", JValue.str "b")] t0) "a"
      = lookupField [("a", JValue.str "b")] "a" :=
  ⟨by decide, by decide,
    ((C8_frame [("a", JValue.str "b")] t0).2.2.2.2.2.1 "a" (by decide) (by decide)).1⟩

/-- Counterexample to claim C9 as stated: a record without `sourceSystem`
posted to the MuleSoft endpoint is not always assigned one of the four
MuleSoft categories — with a string `statusCode` the classifier raises a
`TypeError` that propagates out of the handler. -/
theorem C9_counterexample :
    lookupField [("statusCode", JValue.str "abc")] "sourceSystem" = none
    ∧ mulesoftLogHandler (.ok (.obj [("statusCode", JValue.str "abc")])) t0 cfg0 netOk200
      = .error "TypeError" :=
  ⟨rfl, rfl⟩

/-- Claim C9 (amended): a record posted to the MuleSoft endpoint without a
`sourceSystem` field gets `sourceSystem = "MuleSoft"` before classification,
and whenever classification succeeds the category is one of the four
MuleSoft categories — never `SalesforceEvent` or `GeneralEvent`. -/
theorem C9_mulesoft_categories (fs : Rec') (now : Tm)
    (h : lookupField fs "sourceSystem" = none) :
    lookupField (mulesoftProcess fs now) "sourceSystem" = some (.str "MuleSoft")
    ∧ (∀ c, determine_log_type (mulesoftProcess fs now) = .ok c → c ∈ muleCategories)
    ∧ (∀ c, determine_log_type (mulesoftProcess fs now) = .ok c →
        c ≠ "SalesforceEvent" ∧ c ≠ "GeneralEvent") := by
  have hms := mulesoftProcess_source h now
  refine ⟨hms, dlt_muleSource hms, ?_⟩
  intro c hc
  have hmem := dlt_muleSource hms c hc
  constructor <;> (intro heq; subst heq; exact absurd hmem (by decide))

/-- Witness for the amended C9 on a concrete record without `sourceSystem`. -/
theorem C9_mulesoft_categories_witness :
    lookupField [("foo", JValue.str "bar")] "sourceSystem" = none
    ∧ (lookupField (mulesoftProcess [("foo", JValue.str "bar")] t0) "sourceSystem"
        = some (.str "MuleSoft")
      ∧ (∀ c, determine_log_type (mulesoftProcess [("foo", JValue.str "bar")] t0) = .ok c →
          c ∈ muleCategories)
      ∧ (∀ c, determine_log_type (mulesoftProcess [("foo", JValue.str "bar")] t0) = .ok c →
          c ≠ "SalesforceEvent" ∧ c ≠ "GeneralEvent")) :=
  ⟨rfl, C9_mulesoft_categories [("foo", JValue.str "bar")] t0 rfl⟩

/-- Claim C10: a body that parses to a falsy JSON value — in particular the
empty object, the empty array, `0`, `false` or `null` — makes the universal
and Salesforce handlers respond 400 `Empty or invalid JSON payload` with no
downstream call. -/
theorem C10_falsy_payload (now : Tm) (cfg : Config) (net : SignedRequest → NetOutcome)
    (v : JValue) (h : pyTruthy v = false) :
    universalLogHandler (.ok v) now cfg net
      = .ok ⟨⟨400, "Empty or invalid JSON payload"⟩, []⟩
    ∧ salesforceLogHandler (.ok v) now cfg net
      = .ok ⟨⟨400, "Empty or invalid JSON payload"⟩, []⟩
    ∧ pyTruthy (JValue.obj []) = false ∧ pyTruthy (JValue.arr []) = false
    ∧ pyTruthy (JValue.num 0) = false ∧ pyTruthy (JValue.bool false) = false
    ∧ pyTruthy JValue.null = false := by
  refine ⟨?_, ?_, rfl, rfl, rfl, rfl, rfl⟩
  · unfold universalLogHandler
    simp [h]
  · unfold salesforceLogHandler
    simp [h]

/-- Witness for C10 at the empty JSON object. -/
theorem C10_falsy_payload_witness :
    pyTruthy (JValue.obj []) = false
    ∧ universalLogHandler (.ok (JValue.obj [])) t0 cfg0 netOk200
      = .ok ⟨⟨400, "Empty or invalid JSON payload"⟩, []⟩ :=
  ⟨rfl, (C10_falsy_payload t0 cfg0 netOk200 (JValue.obj []) rfl).1⟩

/-- A truthy string payload containing both `timestamp` and `sourceSystem`
as substrings skips both `in`-guarded default assignments and is forwarded
by the Salesforce handler (which never calls the classifier). -/
theorem salesforceLogHandler_string_payload :
    salesforceLogHandler (.ok (.str "timestamp and sourceSystem")) t0 cfg0 netOk200
      = .ok ⟨⟨200, "Salesforce event logged successfully: OK"⟩,
          (post_to_law cfg0 (.str "timestamp and sourceSystem") "SalesforceEvent" t0
            netOk200).calls⟩ := by
  rfl

/-- A truthy string payload missing one of the two keys as a substring hits
the item assignment on a non-dict: an uncaught `TypeError`. -/
theorem salesforceLogHandler_string_payload_raises :
    salesforceLogHandler (.ok (.str "hello")) t0 cfg0 netOk200 = .error "TypeError" := by
  rfl

/-- The same surviving string payload on the MuleSoft endpoint still raises:
classification calls `.get` on the non-dict, an `AttributeError`. -/
theorem mulesoftLogHandler_string_payload :
    mulesoftLogHandler (.ok (.str "timestamp and sourceSystem")) t0 cfg0 netOk200
      = .error "AttributeError" := by
  rfl

/-- A truthy number payload is not iterable: the `in` test itself raises an
uncaught `TypeError`. -/
theorem universalLogHandler_num_payload :
    universalLogHandler (.ok (.num 5)) t0 cfg0 netOk200 = .error "TypeError" := by
  rfl
